import Mathlib

/-!
Verification of the `pystlouisfed` FRASER adapter (`pystlouisfed/fraser.py`).

The adapter is a thin client over an external OAI-PMH collaborator
(`sickle.Sickle`).  The embedding below translates the adapter's code
directly; the collaborator itself is not part of the repository, so its
observable behaviour is modelled from the specification as an oracle
environment (`OAIEnv`).  Python keyword arguments are modelled as an
ordered list of name/value pairs, so that the presence or absence of a
keyword in a forwarded call is observable.  Each adapter method returns
the client state after the call, the list of collaborator calls it
issued, and the collaborator's result (an `Except`, modelling Python
exceptions propagating to the caller).
-/

/-- Modelled from the spec: a Python runtime value as passed in a keyword
argument (`None`, a string, or a boolean). -/
inductive PyValue where
  | pyNone : PyValue
  | pyStr : String → PyValue
  | pyBool : Bool → PyValue
deriving DecidableEq, Repr

/-- Translate an `Optional[str]` Python value into a `PyValue`. -/
def pyOfOptStr : Option String → PyValue
  | Option.none => PyValue.pyNone
  | Option.some s => PyValue.pyStr s

/-- Modelled from the spec: the four OAI-PMH verbs the collaborator exposes
as verb-named methods. -/
inductive OAIVerb where
  | ListRecords : OAIVerb
  | ListSets : OAIVerb
  | ListIdentifiers : OAIVerb
  | GetRecord : OAIVerb
deriving DecidableEq, Repr

/-- A single call forwarded to the collaborator: the verb method invoked and
the keyword arguments passed to it, in source order. -/
structure OAICall where
  verb : OAIVerb
  kwargs : List (String × PyValue)
deriving DecidableEq, Repr

/-- Modelled from the spec: the error kinds the collaborator can raise
(connection errors, HTTP status errors, XML parse errors, "id does not
exist" errors); they propagate unchanged through the adapter. -/
inductive OAIError where
  | idDoesNotExist : String → OAIError
  | httpError : Nat → OAIError
  | xmlSyntaxError : String → OAIError
deriving DecidableEq, Repr

/-- Modelled from the spec: `Record`, a full metadata record owned by the
collaborator (identifier, deletion flag, metadata fields). -/
structure Record where
  identifier : String
  deleted : Bool
  metadata : List (String × String)
deriving DecidableEq, Repr

/-- Modelled from the spec: `Header`, a header-only record owned by the
collaborator (identifier, datestamp, set membership). -/
structure Header where
  identifier : String
  datestamp : String
  setSpecs : List String
deriving DecidableEq, Repr

/-- Modelled from the spec: `Set`, an OAI-PMH set description owned by the
collaborator. -/
structure OAISet where
  setSpec : String
  setName : String
deriving DecidableEq, Repr

/-- Modelled from the spec: the behaviour of the external OAI-PMH
collaborator and its transport, as an oracle.  Each field maps the
endpoint URL the connection handle is bound to and the keyword arguments
of one verb call to the collaborator's outcome: either the fully
materialised lazy sequence (modelled as a list) or the error it raises. -/
structure OAIEnv where
  recordsResp : String → List (String × PyValue) → Except OAIError (List Record)
  setsResp : String → List (String × PyValue) → Except OAIError (List OAISet)
  headersResp : String → List (String × PyValue) → Except OAIError (List Header)
  recordResp : String → List (String × PyValue) → Except OAIError Record

/-- Modelled from the spec: the collaborator's connection handle
(`sickle.Sickle`), constructed from a base URL and holding no other
state. -/
structure Sickle where
  endpoint : String
deriving DecidableEq, Repr

/-- Modelled from the spec: the collaborator's `ListRecords` verb method:
one call against the handle's endpoint, returning the lazy record
sequence or raising the collaborator's error. -/
def Sickle.ListRecords (s : Sickle) (env : OAIEnv)
    (kwargs : List (String × PyValue)) :
    List OAICall × Except OAIError (List Record) :=
  ([OAICall.mk OAIVerb.ListRecords kwargs], env.recordsResp s.endpoint kwargs)

/-- Modelled from the spec: the collaborator's `ListSets` verb method. -/
def Sickle.ListSets (s : Sickle) (env : OAIEnv)
    (kwargs : List (String × PyValue)) :
    List OAICall × Except OAIError (List OAISet) :=
  ([OAICall.mk OAIVerb.ListSets kwargs], env.setsResp s.endpoint kwargs)

/-- Modelled from the spec: the collaborator's `ListIdentifiers` verb
method. -/
def Sickle.ListIdentifiers (s : Sickle) (env : OAIEnv)
    (kwargs : List (String × PyValue)) :
    List OAICall × Except OAIError (List Header) :=
  ([OAICall.mk OAIVerb.ListIdentifiers kwargs], env.headersResp s.endpoint kwargs)

/-- Modelled from the spec: the collaborator's `GetRecord` verb method,
returning a single record or raising the collaborator's error. -/
def Sickle.GetRecord (s : Sickle) (env : OAIEnv)
    (kwargs : List (String × PyValue)) :
    List OAICall × Except OAIError Record :=
  ([OAICall.mk OAIVerb.GetRecord kwargs], env.recordResp s.endpoint kwargs)

/-- The adapter class `FRASER`: its only state is the collaborator handle
`self._sickle`. -/
structure FRASER where
  _sickle : Sickle
deriving DecidableEq, Repr

/-- `FRASER.__init__`: binds the handle to the fixed base URL.  It takes no
oracle argument: construction consults no endpoint and cannot fail. -/
def FRASER.init : FRASER :=
  FRASER.mk (Sickle.mk "https://fraser.stlouisfed.org/oai")

/-- `FRASER.list_records`: forwards one `ListRecords` call with
`metadataPrefix="mods"`, `ignore_deleted=ignore_deleted`, `set=set`. -/
def FRASER.list_records (f : FRASER) (env : OAIEnv)
    (ignore_deleted : Bool := false) (set : Option String := Option.none) :
    FRASER × List OAICall × Except OAIError (List Record) :=
  let r := f._sickle.ListRecords env
    [("metadataPrefix", PyValue.pyStr "mods"),
     ("ignore_deleted", PyValue.pyBool ignore_deleted),
     ("set", pyOfOptStr set)]
  (f, r.1, r.2)

/-- `FRASER.list_sets`: forwards one `ListSets` call with no arguments. -/
def FRASER.list_sets (f : FRASER) (env : OAIEnv) :
    FRASER × List OAICall × Except OAIError (List OAISet) :=
  let r := f._sickle.ListSets env []
  (f, r.1, r.2)

/-- `FRASER.list_identifiers`: forwards one `ListIdentifiers` call with
`metadataPrefix="mods"`, `ignore_deleted=ignore_deleted`, `set=set`. -/
def FRASER.list_identifiers (f : FRASER) (env : OAIEnv)
    (ignore_deleted : Bool := false) (set : Option String := Option.none) :
    FRASER × List OAICall × Except OAIError (List Header) :=
  let r := f._sickle.ListIdentifiers env
    [("metadataPrefix", PyValue.pyStr "mods"),
     ("ignore_deleted", PyValue.pyBool ignore_deleted),
     ("set", pyOfOptStr set)]
  (f, r.1, r.2)

/-- `FRASER.get_record`: forwards one `GetRecord` call with
`identifier=identifier`, `metadataPrefix="mods"`. -/
def FRASER.get_record (f : FRASER) (env : OAIEnv) (identifier : String) :
    FRASER × List OAICall × Except OAIError Record :=
  let r := f._sickle.GetRecord env
    [("identifier", PyValue.pyStr identifier),
     ("metadataPrefix", PyValue.pyStr "mods")]
  (f, r.1, r.2)

/-- The keyword arguments the adapter builds for its record-listing calls. -/
def recordKwargs (ignore_deleted : Bool) (set : Option String) :
    List (String × PyValue) :=
  [("metadataPrefix", PyValue.pyStr "mods"),
   ("ignore_deleted", PyValue.pyBool ignore_deleted),
   ("set", pyOfOptStr set)]

/-- The keyword arguments the adapter builds for `get_record`. -/
def getRecordKwargs (identifier : String) : List (String × PyValue) :=
  [("identifier", PyValue.pyStr identifier),
   ("metadataPrefix", PyValue.pyStr "mods")]

/-- A concrete record used in witnesses. -/
def recDemo : Record :=
  Record.mk "oai:fraser.stlouisfed.org:title:176" false [("title", "Annual Report")]

/-- A concrete collaborator oracle used in witnesses: every call succeeds. -/
def envDemo : OAIEnv :=
  OAIEnv.mk (fun _ _ => Except.ok [recDemo]) (fun _ _ => Except.ok [])
    (fun _ _ => Except.ok []) (fun _ _ => Except.ok recDemo)

/-- A concrete collaborator oracle used in witnesses: `GetRecord` raises an
"id does not exist" error, the other verbs succeed. -/
def envErr : OAIEnv :=
  OAIEnv.mk (fun _ _ => Except.ok []) (fun _ _ => Except.ok [])
    (fun _ _ => Except.ok [])
    (fun _ _ => Except.error (OAIError.idDoesNotExist "oai:fraser.stlouisfed.org:title:0"))

/-- C1: for every call `list_records(ignore_deleted, set)`, the adapter
forwards exactly one `ListRecords` call to the collaborator, with metadata
prefix `"mods"`, the caller's `ignore_deleted` flag and the caller's `set`
value, and returns the collaborator's lazy sequence unchanged. -/
theorem C1_list_records_forwards (f : FRASER) (env : OAIEnv)
    (ign : Bool) (s : Option String) :
    (f.list_records env ign s).2.1 =
      [OAICall.mk OAIVerb.ListRecords (recordKwargs ign s)] ∧
    (f.list_records env ign s).2.2 =
      env.recordsResp f._sickle.endpoint (recordKwargs ign s) :=
  And.intro rfl rfl

/-- C2: `get_record(identifier)` forwards exactly one `GetRecord` call with
that identifier and metadata prefix `"mods"` and returns the single record
the collaborator produces; when the collaborator answers such a valid
identifier with a record bearing it, the returned record's identifier
equals the input. -/
theorem C2_get_record_forwards (f : FRASER) (env : OAIEnv)
    (identifier : String) :
    (f.get_record env identifier).2.1 =
      [OAICall.mk OAIVerb.GetRecord (getRecordKwargs identifier)] ∧
    (f.get_record env identifier).2.2 =
      env.recordResp f._sickle.endpoint (getRecordKwargs identifier) ∧
    ∀ r : Record,
      env.recordResp f._sickle.endpoint (getRecordKwargs identifier) =
        Except.ok r →
      r.identifier = identifier →
      (f.get_record env identifier).2.2 = Except.ok r ∧
        r.identifier = identifier :=
  And.intro rfl (And.intro rfl (fun _ hok hid => And.intro (hok ▸ rfl) hid))

/-- Witness for C2 at a concrete oracle: the record returned for
`"oai:fraser.stlouisfed.org:title:176"` carries that identifier. -/
theorem C2_get_record_forwards_witness :
    (FRASER.init.get_record envDemo "oai:fraser.stlouisfed.org:title:176").2.2 =
      Except.ok recDemo ∧
    recDemo.identifier = "oai:fraser.stlouisfed.org:title:176" :=
  (C2_get_record_forwards FRASER.init envDemo
    "oai:fraser.stlouisfed.org:title:176").2.2 recDemo rfl rfl

/-- C3: for every call `list_identifiers(ignore_deleted, set)`, the adapter
forwards exactly one `ListIdentifiers` call with the same parameter mapping
as `list_records` (metadata prefix `"mods"`, caller's `ignore_deleted` and
`set`) and returns the collaborator's lazy header sequence unchanged. -/
theorem C3_list_identifiers_forwards (f : FRASER) (env : OAIEnv)
    (ign : Bool) (s : Option String) :
    (f.list_identifiers env ign s).2.1 =
      [OAICall.mk OAIVerb.ListIdentifiers (recordKwargs ign s)] ∧
    (f.list_identifiers env ign s).2.2 =
      env.headersResp f._sickle.endpoint (recordKwargs ign s) :=
  And.intro rfl rfl

/-- C4: every `list_sets()` call forwards exactly one `ListSets` call with no
keyword arguments (in particular no metadata prefix) and returns the
collaborator's lazy sequence of sets unchanged. -/
theorem C4_list_sets_forwards (f : FRASER) (env : OAIEnv) :
    (f.list_sets env).2.1 = [OAICall.mk OAIVerb.ListSets []] ∧
    (f.list_sets env).2.2 = env.setsResp f._sickle.endpoint [] :=
  And.intro rfl rfl

/-- C5: the constructed client's connection handle is bound to the fixed
base URL `https://fraser.stlouisfed.org/oai`, and each of the four
operations issues its request through that handle, so every collaborator
consultation is at that endpoint. -/
theorem C5_fixed_endpoint :
    FRASER.init._sickle.endpoint = "https://fraser.stlouisfed.org/oai" ∧
    ∀ (env : OAIEnv) (ign : Bool) (s : Option String) (identifier : String),
      (FRASER.init.list_records env ign s).2.2 =
        env.recordsResp "https://fraser.stlouisfed.org/oai" (recordKwargs ign s) ∧
      (FRASER.init.list_sets env).2.2 =
        env.setsResp "https://fraser.stlouisfed.org/oai" [] ∧
      (FRASER.init.list_identifiers env ign s).2.2 =
        env.headersResp "https://fraser.stlouisfed.org/oai" (recordKwargs ign s) ∧
      (FRASER.init.get_record env identifier).2.2 =
        env.recordResp "https://fraser.stlouisfed.org/oai" (getRecordKwargs identifier) :=
  And.intro rfl (fun _ _ _ _ =>
    And.intro rfl (And.intro rfl (And.intro rfl rfl)))

/-- C6: each of the four operations fails exactly when the corresponding
collaborator call fails, with the collaborator's error uncaught and
untransformed; in particular `get_record` fails with the collaborator's
not-found error when the identifier does not exist. -/
theorem C6_errors_propagate (f : FRASER) (env : OAIEnv)
    (ign : Bool) (s : Option String) (identifier : String) :
    (∀ e : OAIError,
      env.recordsResp f._sickle.endpoint (recordKwargs ign s) = Except.error e ↔
        (f.list_records env ign s).2.2 = Except.error e) ∧
    (∀ e : OAIError,
      env.setsResp f._sickle.endpoint [] = Except.error e ↔
        (f.list_sets env).2.2 = Except.error e) ∧
    (∀ e : OAIError,
      env.headersResp f._sickle.endpoint (recordKwargs ign s) = Except.error e ↔
        (f.list_identifiers env ign s).2.2 = Except.error e) ∧
    (∀ e : OAIError,
      env.recordResp f._sickle.endpoint (getRecordKwargs identifier) = Except.error e ↔
        (f.get_record env identifier).2.2 = Except.error e) ∧
    (∀ missing : String,
      env.recordResp f._sickle.endpoint (getRecordKwargs identifier) =
        Except.error (OAIError.idDoesNotExist missing) →
      (f.get_record env identifier).2.2 =
        Except.error (OAIError.idDoesNotExist missing)) :=
  And.intro (fun _ => Iff.rfl)
    (And.intro (fun _ => Iff.rfl)
      (And.intro (fun _ => Iff.rfl)
        (And.intro (fun _ => Iff.rfl) (fun _ h => h))))

/-- Witness for C6 at a concrete oracle whose `GetRecord` raises
"id does not exist": the adapter raises exactly that error. -/
theorem C6_errors_propagate_witness :
    (FRASER.init.get_record envErr "oai:fraser.stlouisfed.org:title:0").2.2 =
      Except.error (OAIError.idDoesNotExist "oai:fraser.stlouisfed.org:title:0") :=
  (C6_errors_propagate FRASER.init envErr false Option.none
    "oai:fraser.stlouisfed.org:title:0").2.2.2.2
    "oai:fraser.stlouisfed.org:title:0" rfl

/-- C7: every one of the four operations leaves the client's state
unchanged: the connection handle after the call equals the handle before
it, whether the collaborator call succeeds or errors. -/
theorem C7_state_unchanged (f : FRASER) (env : OAIEnv)
    (ign : Bool) (s : Option String) (identifier : String) :
    (f.list_records env ign s).1 = f ∧
    (f.list_sets env).1 = f ∧
    (f.list_identifiers env ign s).1 = f ∧
    (f.get_record env identifier).1 = f :=
  And.intro rfl (And.intro rfl (And.intro rfl rfl))

/-- C8: for each of the four methods, two successive calls with identical
parameters issue two independent collaborator requests (the combined
trace holds the same request twice, none suppressed), and whenever the
collaborator answers both calls identically the two results are
structurally equal. -/
theorem C8_no_caching (f : FRASER) (env1 env2 : OAIEnv)
    (ign : Bool) (s : Option String) (identifier : String) :
    ((f.list_records env1 ign s).2.1 ++
        ((f.list_records env1 ign s).1.list_records env2 ign s).2.1 =
      [OAICall.mk OAIVerb.ListRecords (recordKwargs ign s),
       OAICall.mk OAIVerb.ListRecords (recordKwargs ign s)]) ∧
    (env1.recordsResp f._sickle.endpoint (recordKwargs ign s) =
        env2.recordsResp f._sickle.endpoint (recordKwargs ign s) →
      (f.list_records env1 ign s).2.2 =
        ((f.list_records env1 ign s).1.list_records env2 ign s).2.2) ∧
    ((f.list_sets env1).2.1 ++ ((f.list_sets env1).1.list_sets env2).2.1 =
      [OAICall.mk OAIVerb.ListSets [], OAICall.mk OAIVerb.ListSets []]) ∧
    (env1.setsResp f._sickle.endpoint [] = env2.setsResp f._sickle.endpoint [] →
      (f.list_sets env1).2.2 = ((f.list_sets env1).1.list_sets env2).2.2) ∧
    ((f.list_identifiers env1 ign s).2.1 ++
        ((f.list_identifiers env1 ign s).1.list_identifiers env2 ign s).2.1 =
      [OAICall.mk OAIVerb.ListIdentifiers (recordKwargs ign s),
       OAICall.mk OAIVerb.ListIdentifiers (recordKwargs ign s)]) ∧
    (env1.headersResp f._sickle.endpoint (recordKwargs ign s) =
        env2.headersResp f._sickle.endpoint (recordKwargs ign s) →
      (f.list_identifiers env1 ign s).2.2 =
        ((f.list_identifiers env1 ign s).1.list_identifiers env2 ign s).2.2) ∧
    ((f.get_record env1 identifier).2.1 ++
        ((f.get_record env1 identifier).1.get_record env2 identifier).2.1 =
      [OAICall.mk OAIVerb.GetRecord (getRecordKwargs identifier),
       OAICall.mk OAIVerb.GetRecord (getRecordKwargs identifier)]) ∧
    (env1.recordResp f._sickle.endpoint (getRecordKwargs identifier) =
        env2.recordResp f._sickle.endpoint (getRecordKwargs identifier) →
      (f.get_record env1 identifier).2.2 =
        ((f.get_record env1 identifier).1.get_record env2 identifier).2.2) :=
  And.intro rfl (And.intro (fun h => h)
    (And.intro rfl (And.intro (fun h => h)
      (And.intro rfl (And.intro (fun h => h)
        (And.intro rfl (fun h => h)))))))

/-- Witness for C8 with the same concrete oracle answering both calls: both
traces appear and both results agree. -/
theorem C8_no_caching_witness :
    ((FRASER.init.list_records envDemo false Option.none).2.1 ++
        ((FRASER.init.list_records envDemo false Option.none).1.list_records
          envDemo false Option.none).2.1 =
      [OAICall.mk OAIVerb.ListRecords (recordKwargs false Option.none),
       OAICall.mk OAIVerb.ListRecords (recordKwargs false Option.none)]) ∧
    (FRASER.init.list_records envDemo false Option.none).2.2 =
      ((FRASER.init.list_records envDemo false Option.none).1.list_records
        envDemo false Option.none).2.2 :=
  And.intro
    (C8_no_caching FRASER.init envDemo envDemo false Option.none "x").1
    ((C8_no_caching FRASER.init envDemo envDemo false Option.none "x").2.1 rfl)

/-- C9: when the caller omits the optional arguments of `list_records` or
`list_identifiers`, the defaults are forwarded rather than dropped: the
collaborator receives the keyword `set` with the value `None` and the
keyword `ignore_deleted` with the value `False`, and the `set` keyword is
present in the forwarded call. -/
theorem C9_defaults_forwarded (f : FRASER) (env : OAIEnv) :
    (f.list_records env).2.1 =
      [OAICall.mk OAIVerb.ListRecords
        [("metadataPrefix", PyValue.pyStr "mods"),
         ("ignore_deleted", PyValue.pyBool false),
         ("set", PyValue.pyNone)]] ∧
    (f.list_identifiers env).2.1 =
      [OAICall.mk OAIVerb.ListIdentifiers
        [("metadataPrefix", PyValue.pyStr "mods"),
         ("ignore_deleted", PyValue.pyBool false),
         ("set", PyValue.pyNone)]] ∧
    ∀ c : OAICall, c ∈ (f.list_records env).2.1 →
      ("set", PyValue.pyNone) ∈ c.kwargs ∧
        ("ignore_deleted", PyValue.pyBool false) ∈ c.kwargs := by
  refine And.intro rfl (And.intro rfl ?_)
  intro c hc
  simp only [FRASER.list_records, Sickle.ListRecords, pyOfOptStr,
    List.mem_singleton] at hc
  subst hc
  exact And.intro (by simp) (by simp)

/-- C10: constructing the client always terminates normally and returns an
instance whose only state is the collaborator handle built from the fixed
base URL; the constructor consults no endpoint (it takes no oracle) and
cannot fail, despite the source's `NoReturn` annotation. -/
theorem C10_ctor_returns :
    FRASER.init = FRASER.mk (Sickle.mk "https://fraser.stlouisfed.org/oai") :=
  rfl

/-- Witness for C9 at a concrete oracle: the one forwarded call of an
argument-free `list_records()` carries `set=None` and
`ignore_deleted=False`. -/
theorem C9_defaults_forwarded_witness :
    ("set", PyValue.pyNone) ∈
      (OAICall.mk OAIVerb.ListRecords
        [("metadataPrefix", PyValue.pyStr "mods"),
         ("ignore_deleted", PyValue.pyBool false),
         ("set", PyValue.pyNone)]).kwargs ∧
    ("ignore_deleted", PyValue.pyBool false) ∈
      (OAICall.mk OAIVerb.ListRecords
        [("metadataPrefix", PyValue.pyStr "mods"),
         ("ignore_deleted", PyValue.pyBool false),
         ("set", PyValue.pyNone)]).kwargs :=
  (C9_defaults_forwarded FRASER.init envDemo).2.2
    (OAICall.mk OAIVerb.ListRecords
      [("metadataPrefix", PyValue.pyStr "mods"),
       ("ignore_deleted", PyValue.pyBool false),
       ("set", PyValue.pyNone)])
    (by simp [FRASER.list_records, Sickle.ListRecords, pyOfOptStr])
